import Mathlib

/-!
Verification development for the FastAlert MCP server (src/src/index.ts):
a shallow embedding of the OAuth-like authorization layer (dynamic client
registration, code-for-token exchange, bearer-token request gate) and of the
upstream API client's request/error-normalization layer, together with
theorems settling the specification's claims.

JavaScript runtime values are modelled by the inductive type `Js`;
JS truthiness, optional chaining, `||`, `??` and object spread are modelled
by small total functions whose comments name the construct they translate.
-/

/-- A JavaScript runtime value (the dynamic values flowing through the
server: request bodies, backend payloads, header values). `undefined` is the
JS `undefined` value, `nan` the floating NaN (only produced here by
arithmetic on `undefined`). Numbers are restricted to integers, which covers
every number the source manipulates (timestamps, statuses, counts). -/
inductive Js where
  | undefined : Js
  | null : Js
  | nan : Js
  | bool (b : Bool) : Js
  | num (n : Int) : Js
  | str (s : String) : Js
  | arr (xs : List Js) : Js
  | obj (fields : List (String × Js)) : Js

/-- JS truthiness: `undefined`, `null`, `NaN`, `false`, `0` and `""` are
falsy; every other value (including `[]` and an empty object) is truthy. -/
def truthy : Js → Bool
  | .undefined => false
  | .null => false
  | .nan => false
  | .bool b => b
  | .num n => n != 0
  | .str s => s != ""
  | .arr _ => true
  | .obj _ => true

/-- JS `a || b`. -/
def jsOr (a b : Js) : Js := if truthy a then a else b

/-- JS `a ?? b` (nullish coalescing). -/
def jsNullish (a b : Js) : Js :=
  match a with
  | .undefined => b
  | .null => b
  | _ => a

/-- Optional-chaining property access `v?.k`: the named own property when
`v` is an object, `undefined` otherwise (the source only reads plain data
properties such as `errors`, `fault`, `detail`, `message`, `data`,
`status`, which do not exist on primitives or arrays). -/
def jsGetOpt (v : Js) (k : String) : Js :=
  match v with
  | .obj fields =>
    match fields.find? (fun p => p.1 == k) with
    | some p => p.2
    | none => .undefined
  | _ => .undefined

/-- JS `Array.isArray`. -/
def isJsArray : Js → Bool
  | .arr _ => true
  | _ => false

/-- JS `.length` of an array value (only read after an `Array.isArray`
check in the source; 0 for non-arrays). -/
def jsArrayLength : Js → Nat
  | .arr xs => xs.length
  | _ => 0

/-- JS `typeof v === 'object'` (true for objects, arrays and `null`). -/
def typeofIsObject : Js → Bool
  | .obj _ => true
  | .arr _ => true
  | .null => true
  | _ => false

/-- JS subtraction as used in `data.expires_at - Date.now()`: numeric on
numbers, `NaN` whenever either side is not a number. -/
def jsSub : Js → Js → Js
  | .num a, .num b => .num (a - b)
  | _, _ => .nan

/-- JS `Math.floor(v / 1000)` as used on the result of `jsSub`: floor
division on numbers, `NaN` on `NaN`. -/
def jsFloorDiv1000 : Js → Js
  | .num a => .num (Int.fdiv a 1000)
  | _ => .nan

/-- Decimal digits of a natural number, most significant first, written
with an explicit fuel argument so that recursion is structural (`fuel ≥ n`
suffices for `n ≥ 1`). -/
def decAux : Nat → Nat → List Char
  | 0, _ => []
  | fuel + 1, n =>
    if n = 0 then [] else decAux fuel (n / 10) ++ [Nat.digitChar (n % 10)]

/-- JS number-to-string coercion for a nonnegative integer (as performed by
a template literal such as `client-...`): its decimal representation. -/
def natToStr (n : Nat) : String :=
  if n = 0 then "0" else String.mk (decAux n n)

/-- JS number-to-string coercion for an integer. -/
def intToStr (i : Int) : String :=
  if i < 0 then "-" ++ natToStr i.natAbs else natToStr i.toNat

/-- String-concatenation coercion `'...' + v` for a non-object JS value
(JS `Array.prototype.toString` / `Object.prototype.toString` give the last
two cases; they are unreachable in the source, which stringifies objects
with `JSON.stringify` instead). -/
def jsCoerceStr : Js → String
  | .undefined => "undefined"
  | .null => "null"
  | .nan => "NaN"
  | .bool b => if b then "true" else "false"
  | .num n => intToStr n
  | .str s => s
  | .arr _ => ""
  | .obj _ => "[object Object]"

/-- A run of `n` spaces. -/
def spacesN (n : Nat) : String := String.mk (List.replicate n ' ')

/-- JSON string escaping for `JSON.stringify` (the escapes relevant to the
data handled here). -/
def escapeJsonChar (c : Char) : String :=
  if c = '"' then "\\\""
  else if c = '\\' then "\\\\"
  else if c = '\n' then "\\n"
  else if c = '\t' then "\\t"
  else if c = '\r' then "\\r"
  else String.mk [c]

/-- A JSON-quoted string literal. -/
def quoteJson (s : String) : String :=
  "\"" ++ String.join (s.data.map escapeJsonChar) ++ "\""

/-- JS `v ? true-check` for skipping `undefined` object members in
`JSON.stringify`. -/
def isUndefinedJs : Js → Bool
  | .undefined => true
  | _ => false

mutual

/-- JSON.stringify(v, null, 2) at nesting indent `ind`: two-space indented
rendering; `NaN` renders as `null`, `undefined` members of objects are
skipped, `undefined` array elements render as `null`. -/
def jsonStringifyAt : Nat → Js → String
  | _, .undefined => "null"
  | _, .null => "null"
  | _, .nan => "null"
  | _, .bool b => if b then "true" else "false"
  | _, .num n => intToStr n
  | _, .str s => quoteJson s
  | ind, .arr xs =>
    match stringifyItems (ind + 2) xs with
    | [] => "[]"
    | items =>
      "[\n" ++ String.intercalate ",\n" (items.map (fun s => spacesN (ind + 2) ++ s)) ++
        "\n" ++ spacesN ind ++ "]"
  | ind, .obj fields =>
    match stringifyMembers (ind + 2) fields with
    | [] => "\x7b\x7d"
    | items =>
      "\x7b\n" ++ String.intercalate ",\n" (items.map (fun s => spacesN (ind + 2) ++ s)) ++
        "\n" ++ spacesN ind ++ "\x7d"

/-- Serialized array elements for `jsonStringifyAt`. -/
def stringifyItems : Nat → List Js → List String
  | _, [] => []
  | ind, x :: xs => jsonStringifyAt ind x :: stringifyItems ind xs

/-- Serialized object members for `jsonStringifyAt`, skipping `undefined`
values as `JSON.stringify` does. -/
def stringifyMembers : Nat → List (String × Js) → List String
  | _, [] => []
  | ind, (k, v) :: fs =>
    if isUndefinedJs v then stringifyMembers ind fs
    else (quoteJson k ++ ": " ++ jsonStringifyAt ind v) :: stringifyMembers ind fs

end

/-- JSON.stringify(v, null, 2) as called in the 422 branch of the upstream
client's error handler. -/
def jsonStringify2 (v : Js) : String := jsonStringifyAt 0 v

/-! ## Upstream API Client (src/FastalertClient.ts) -/

/-- An opaque underlying JS error object (network error, timeout,
programming error), identified by a tag so that "propagated unchanged" is
expressible. -/
inductive JsError where
  | mk (tag : String) : JsError

/-- The outcome of the single axios transport call made by
`FastalertClient.request`:
either a 2xx response carrying a body, an axios error carrying an HTTP
error response (`error.response` set, with status and body), an axios
transport failure with no response received (`error.response` undefined:
network failure or timeout — `axios.isAxiosError` is true for these), or a
non-axios error (for which `axios.isAxiosError` is false). -/
inductive AxiosOutcome where
  | ok (body : Js) : AxiosOutcome
  | httpError (status : Nat) (body : Js) (e : JsError) : AxiosOutcome
  | noResponse (e : JsError) : AxiosOutcome
  | nonAxios (e : JsError) : AxiosOutcome

/-- A failure raised by `FastalertClient.request`. `apiError` is the typed
`FastalertmasterApiError` (a plain carrier class declared in `types.ts`,
outside `src/`: message, optional error code, optional numeric HTTP
status, per its three constructor arguments at the call sites and the
spec's description); `raw` is an underlying error re-thrown unchanged. -/
inductive ReqFailure where
  | apiError (message : Js) (code : Js) (status : Option Nat) : ReqFailure
  | raw (e : JsError) : ReqFailure

/-- The mutable state of a `FastalertClient` instance: the `apiKey` slot
and `client.defaults.headers.common` (as set by `axios.create` and
mutated by `setToken`). Header maps are association lists read through
`hGet`, which takes the first matching entry. -/
structure ClientState where
  apiKey : Js
  commonHeaders : List (String × Js)

/-- Header/property lookup in an association-list map: the first matching
entry's value, `undefined` if absent. -/
def hGet (m : List (String × Js)) (k : String) : Js :=
  match m.find? (fun p => p.1 == k) with
  | some p => p.2
  | none => .undefined

/-- JS property assignment `m[k] = v` on a header map: the new binding
shadows (and here replaces) any previous binding for `k`. -/
def hSet (m : List (String × Js)) (k : String) (v : Js) : List (String × Js) :=
  (k, v) :: m.filter (fun p => p.1 != k)

/-- The state created by the `FastalertClient` constructor:
`axios.create` with `Content-Type` and `IS-MCP-API` default headers and no
API key yet. -/
def initClientState : ClientState :=
  { apiKey := .undefined
    commonHeaders := [("Content-Type", .str "application/json"), ("IS-MCP-API", .bool true)] }

/-- `FastalertClient.setToken`: stores the bearer credential in the
`apiKey` slot and in `client.defaults.headers.common["X-API-KEY"]`. -/
def setToken (st : ClientState) (token : String) : ClientState :=
  { apiKey := .str token
    commonHeaders := hSet st.commonHeaders "X-API-KEY" (.str token) }

/-- The headers of the outbound wire request built by
`FastalertClient.request`:
the object spread `\x7b ...defaults.headers.common, ...header,
'X-API-KEY': this.apiKey \x7d`, in which a later entry wins on key
collision; under first-match lookup the later spreads are therefore
prepended. -/
def wireHeaders (st : ClientState) (header : List (String × Js)) : List (String × Js) :=
  ("X-API-KEY", st.apiKey) :: (header ++ st.commonHeaders)

/-- One outbound HTTP request as handed to the axios transport. -/
structure WireRequest where
  method : String
  url : String
  data : Option Js
  params : Option Js
  headers : List (String × Js)

/-- The success-path normalization of `FastalertClient.request`: the JS
object `\x7b status: response.data?.status ?? true, message:
response.data?.message ?? 'No message provided', data:
response.data?.data \x7d` (note: the whole envelope object is the value
returned, under a `as T` cast). -/
def mkApiResp (body : Js) : Js :=
  .obj [("status", jsNullish (jsGetOpt body "status") (.bool true)),
        ("message", jsNullish (jsGetOpt body "message") (.str "No message provided")),
        ("data", jsGetOpt body "data")]

/-- The catch-block of `FastalertClient.request` for an axios error
(`axios.isAxiosError(error)` true), given `error.response` (status and
body) when a response was received:
status 422 raises a `VALIDATION_ERROR` with detail taken by `||` from
`data?.errors`, `data?.fault?.detail`, `data?.message` or a literal
default, stringified when `typeof` is `'object'`; every other axios error
(including one with no response at all) raises a generic API error built
from `response?.data?.fault`. -/
def normalizeAxiosFailure (response : Option (Nat × Js)) : ReqFailure :=
  let status : Option Nat := response.map Prod.fst
  let data : Js := match response with | some p => p.2 | none => .undefined
  if status = some 422 then
    let validationErrors :=
      jsOr (jsOr (jsOr (jsGetOpt data "errors") (jsGetOpt (jsGetOpt data "fault") "detail"))
        (jsGetOpt data "message")) (.str "Validation error occurred")
    let messageText :=
      "Validation Error: " ++
        (if typeofIsObject validationErrors then jsonStringify2 validationErrors
         else jsCoerceStr validationErrors)
    .apiError (.str messageText) (.str "VALIDATION_ERROR") (some 422)
  else
    let apiErr := jsGetOpt data "fault"
    .apiError (jsOr (jsGetOpt apiErr "faultstring") (.str "API request failed"))
      (jsGetOpt (jsGetOpt apiErr "detail") "errorcode") status

/-- `FastalertClient.request`: builds the wire request (the first
component lists every transport call issued — exactly one, there being no
retry loop in the source) and either normalizes the success envelope or
maps the failure through the catch block; a non-axios error is re-thrown
unchanged. -/
def requestModel (st : ClientState) (method url : String) (data params : Option Js)
    (header : List (String × Js)) (outcome : AxiosOutcome) :
    List WireRequest × Except ReqFailure Js :=
  ([{ method := method, url := url, data := data, params := params,
      headers := wireHeaders st header }],
   match outcome with
   | .ok body => .ok (mkApiResp body)
   | .httpError status body _ => .error (normalizeAxiosFailure (some (status, body)))
   | .noResponse _ => .error (normalizeAxiosFailure none)
   | .nonAxios e => .error (.raw e))

/-- `FastalertClient.searchChannelEvents` (the spec's `searchChannels`):
`request('get', '/organization/channels', undefined, query)`. -/
def searchChannelEvents (st : ClientState) (query : Js) (outcome : AxiosOutcome) :
    List WireRequest × Except ReqFailure Js :=
  requestModel st "get" "/organization/channels" none (some query) [] outcome

/-- `FastalertClient.sendMessageEvents` (the spec's `sendMessage`):
`request('post', '/send-message', message, undefined, headers)`. -/
def sendMessageEvents (st : ClientState) (message : Js)
    (headers : List (String × Js)) (outcome : AxiosOutcome) :
    List WireRequest × Except ReqFailure Js :=
  requestModel st "post" "/send-message" (some message) none headers outcome

/-! ## Authorization Gateway and Request Gate (src/index.ts) -/

/-- The `RegisteredClient` record built by `app.post("/register")` (source
lines 202–212). `client_id` and `client_secret` are strings by
construction (template literals); the remaining caller-supplied fields are
arbitrary JS values with `||`-defaults. -/
structure Registration where
  client_id : String
  client_secret : String
  redirect_uris : Js
  client_name : Js
  grant_types : Js
  response_types : Js
  token_endpoint_auth_method : Js
  client_id_issued_at : Nat
  client_secret_expires_at : Nat

/-- Dynamic property access on a stored registration record: the record
created by the register handler has exactly the own properties below; any
other name (in particular `access_token`, `token_type` and `expires_at`,
read by the token handler) is `undefined`. -/
def Registration.getProp (r : Registration) : String → Js
  | "client_id" => .str r.client_id
  | "client_secret" => .str r.client_secret
  | "redirect_uris" => r.redirect_uris
  | "client_name" => r.client_name
  | "grant_types" => r.grant_types
  | "response_types" => r.response_types
  | "token_endpoint_auth_method" => r.token_endpoint_auth_method
  | "client_id_issued_at" => .num r.client_id_issued_at
  | "client_secret_expires_at" => .num r.client_secret_expires_at
  | _ => .undefined

/-- The process-wide `registeredClients` registry
(`Record<string, any>`), modelled extensionally as an association list
with first-match lookup. -/
abbrev Registry := List (String × Registration)

/-- Registry lookup `registeredClients[k]`. -/
def regGet (reg : Registry) (k : String) : Option Registration :=
  match List.find? (fun p => p.1 == k) reg with
  | some p => some p.2
  | none => none

/-- Registry assignment `registeredClients[k] = v` (overwrites). -/
def regSet (reg : Registry) (k : String) (v : Registration) : Registry :=
  (k, v) :: List.filter (fun p => p.1 != k) reg

/-- Registry deletion `delete registeredClients[k]`. -/
def regDelete (reg : Registry) (k : String) : Registry :=
  List.filter (fun p => p.1 != k) reg

/-- The destructured `req.body` of `POST /register`; a field the caller
omits destructures to `undefined`. -/
structure RegisterBody where
  redirect_uris : Js
  client_name : Js
  grant_types : Js
  response_types : Js
  token_endpoint_auth_method : Js

/-- The validation test of `POST /register`:
`!redirect_uris || !Array.isArray(redirect_uris) ||
redirect_uris.length === 0`. -/
def invalidRedirectUris (v : Js) : Bool :=
  !truthy v || !isJsArray v || jsArrayLength v == 0

/-- The client identifier template literal
`client-<Date.now()>-<Math.floor(Math.random() * 1000)>`, given the two
observed draws. -/
def mkClientId (nowMs rand : Nat) : String :=
  "client-" ++ natToStr nowMs ++ "-" ++ natToStr rand

/-- An HTTP response of the `/register` route: either
`400 \x7b error: "invalid_client_metadata", ... \x7d` or `201` with the
full registration record. -/
inductive RegisterResponse where
  | error400 (error : String) (error_description : String) : RegisterResponse
  | created201 (record : Registration) : RegisterResponse

/-- The HTTP status code of a `/register` response. -/
def RegisterResponse.httpStatus : RegisterResponse → Nat
  | .error400 _ _ => 400
  | .created201 _ => 201

/-- The `client_id` returned by a successful `/register` response. -/
def registeredIdOf : RegisterResponse → Option String
  | .created201 record => some record.client_id
  | .error400 _ _ => none

/-- The `registration` record literal of `app.post("/register")` (source
lines 202–212), with its `||`-defaults. `nowMs` and `rand` are the values
of `Date.now()` and `Math.floor(Math.random() * 1000)` observed in the
`client_id` template literal, `secretSuffix` the value of
`Math.random().toString(36).substring(2, 15)`, and `nowMs2` the second
`Date.now()` call (line 210). -/
def mkRegistration (body : RegisterBody) (nowMs rand : Nat) (secretSuffix : String)
    (nowMs2 : Nat) : Registration :=
  { client_id := mkClientId nowMs rand
    client_secret := "secret-" ++ secretSuffix
    redirect_uris := body.redirect_uris
    client_name := jsOr body.client_name (.str "Unnamed Client")
    grant_types := jsOr body.grant_types (.arr [.str "authorization_code"])
    response_types := jsOr body.response_types (.arr [.str "code"])
    token_endpoint_auth_method :=
      jsOr body.token_endpoint_auth_method (.str "client_secret_basic")
    client_id_issued_at := nowMs2 / 1000
    client_secret_expires_at := 0 }

/-- The `app.post("/register")` handler: validates `redirect_uris`,
builds the registration record, stores it keyed by its `client_id` and
responds `201`; the handler returns the response and the updated
registry. -/
def registerHandler (body : RegisterBody) (nowMs rand : Nat) (secretSuffix : String)
    (nowMs2 : Nat) (reg : Registry) : RegisterResponse × Registry :=
  if invalidRedirectUris body.redirect_uris then
    (.error400 "invalid_client_metadata"
      "redirect_uris is required and must be a non-empty array", reg)
  else
    let registration := mkRegistration body nowMs rand secretSuffix nowMs2
    (.created201 registration, regSet reg registration.client_id registration)

/-- An HTTP response of the `POST /token` route: either
`400 \x7b error: "invalid_grant", ... \x7d` or `200` with
`\x7b access_token, token_type, expires_in \x7d`. -/
inductive TokenResponse where
  | error400 (error : String) (error_description : String) : TokenResponse
  | ok200 (access_token : Js) (token_type : Js) (expires_in : Js) : TokenResponse

/-- The HTTP status code of a `/token` response. -/
def TokenResponse.httpStatus : TokenResponse → Nat
  | .error400 _ _ => 400
  | .ok200 _ _ _ => 200

/-- The `app.post("/token")` handler: `code` is `req.body.code` (`none`
when absent), `nowMs` the value of `Date.now()`. The guard
`!code || !registeredClients[code]` fails for an absent or empty-string
code and for a code missing from the registry; otherwise the handler
responds from the found record and then deletes it. -/
def tokenHandler (nowMs : Nat) (code : Option String) (reg : Registry) :
    TokenResponse × Registry :=
  match code with
  | none =>
    (.error400 "invalid_grant" "Invalid or expired authorization code", reg)
  | some c =>
    if c = "" then
      (.error400 "invalid_grant" "Invalid or expired authorization code", reg)
    else
      match regGet reg c with
      | none =>
        (.error400 "invalid_grant" "Invalid or expired authorization code", reg)
      | some record =>
        (.ok200 (record.getProp "access_token")
          (jsOr (record.getProp "token_type") (.str "Bearer"))
          (jsFloorDiv1000 (jsSub (record.getProp "expires_at") (.num nowMs))),
         regDelete reg c)

/-- The credential context attached to the request by the gate
(`req.fastalertAuth`). -/
structure FastalertAuth where
  token : String
  clientId : String
  scopes : List String
  expiresAt : Nat

/-- The outcome of one Request Gate evaluation: a 401 rejection (error
code, message, optional `authorization_url` hint) or the request
proceeding with the attached credential. -/
inductive AuthOutcome where
  | rejected401 (code : String) (message : String) (authorization_url : Option String) : AuthOutcome
  | proceed (auth : FastalertAuth) : AuthOutcome

/-- The error code of a rejection, if any. -/
def AuthOutcome.errorCode : AuthOutcome → Option String
  | .rejected401 code _ _ => some code
  | .proceed _ => none

/-- The authorization URL hint built for a missing header:
`authorization_endpoint + "?response_type=code&client_id=mcp-server"`
(the endpoint is `CONFIG.frontUrl + '/login'`). -/
def authorizeUrlOf (authorizationEndpoint : String) : String :=
  authorizationEndpoint ++ "?response_type=code&client_id=mcp-server"

/-- JS `String.prototype.startsWith(pre)` over the character sequence. -/
def jsStartsWith (h pre : String) : Bool := pre.data.isPrefixOf h.data

/-- JS `String.prototype.slice(n)` over the character sequence. -/
def jsSlice (h : String) (n : Nat) : String := String.mk (h.data.drop n)

/-- JS `String.prototype.trim`: strip leading and trailing whitespace. -/
def jsTrim (s : String) : String :=
  String.mk (((s.data.dropWhile Char.isWhitespace).reverse.dropWhile
    Char.isWhitespace).reverse)

/-- The token string extracted from the header: strip an optional
`"Bearer "` code-unit prefix (`slice(7)`). -/
def bearerOf (h : String) : String :=
  if jsStartsWith h "Bearer " then jsSlice h 7 else h

/-- `simpleAuthMiddleware`: one Request Gate evaluation of the
`Authorization` header (`none` when the header is absent; the JS guard
`!authHeader` also fires on an empty-string header value). `nowMs` is the
value of `Date.now()`. -/
def simpleAuthMiddleware (authorizationEndpoint : String) (nowMs : Nat)
    (authHeader : Option String) : AuthOutcome :=
  match authHeader with
  | none =>
    .rejected401 "unauthorized" "Access token required"
      (some (authorizeUrlOf authorizationEndpoint))
  | some h =>
    if h = "" then
      .rejected401 "unauthorized" "Access token required"
        (some (authorizeUrlOf authorizationEndpoint))
    else
      let token := bearerOf h
      if jsTrim token = "" then
        .rejected401 "invalid_token" "Empty token" none
      else
        .proceed { token := token, clientId := "fastalert-client", scopes := [],
                   expiresAt := nowMs / 1000 + 3600 }

/-! ## Specification-side definitions and concrete inputs -/

/-- A decimal digit character. -/
def isDigitChar (c : Char) : Bool := 48 ≤ c.toNat && c.toNat ≤ 57

/-- Decimal value of a digit string (most significant first). -/
def decVal (cs : List Char) : Nat :=
  cs.foldl (fun a c => a * 10 + (c.toNat - 48)) 0

/-- The spec scenario's client-id shape `client-<timestamp>-<int>`:
the literal head `client-`, then a nonempty digit run, a dash, and a
second nonempty digit run. -/
def matchesClientIdPattern (s : String) : Bool :=
  let cs := s.data
  (cs.take 7 == "client-".data) &&
  (let rest := cs.drop 7
   let ts := rest.takeWhile (fun c => c != '-')
   (!ts.isEmpty) && ts.all isDigitChar &&
   (match rest.dropWhile (fun c => c != '-') with
    | '-' :: ds => (!ds.isEmpty) && ds.all isDigitChar
    | _ => false))

/-- Stated from the claim's words (C6): the validation detail is the first
populated of the field-level `errors` object, the `fault.detail` field, or
the generic `message`, with a literal default when none is populated. -/
def specValidationDetail (data : Js) : Js :=
  if truthy (jsGetOpt data "errors") then jsGetOpt data "errors"
  else if truthy (jsGetOpt (jsGetOpt data "fault") "detail") then
    jsGetOpt (jsGetOpt data "fault") "detail"
  else if truthy (jsGetOpt data "message") then jsGetOpt data "message"
  else .str "Validation error occurred"

/-- Stated from the claim's words (C6): structured (object) detail is
stringified, other detail is coerced to text. -/
def specDetailText (v : Js) : String :=
  if typeofIsObject v then jsonStringify2 v else jsCoerceStr v

/-- A registration body with one redirect URI and every optional field
omitted (the spec's scenario input). -/
def bodyEx : RegisterBody :=
  { redirect_uris := .arr [.str "https://a/cb"]
    client_name := .undefined
    grant_types := .undefined
    response_types := .undefined
    token_endpoint_auth_method := .undefined }

/-- A concrete stored registration record, as produced by the register
handler at `Date.now() = 1`, random draw `2`, secret suffix `abc`. -/
def recEx : Registration :=
  { client_id := "client-1-2"
    client_secret := "secret-abc"
    redirect_uris := .arr [.str "https://a/cb"]
    client_name := .str "Unnamed Client"
    grant_types := .arr [.str "authorization_code"]
    response_types := .arr [.str "code"]
    token_endpoint_auth_method := .str "client_secret_basic"
    client_id_issued_at := 0
    client_secret_expires_at := 0 }

/-- A backend 422 body carrying a structured field-errors object. -/
def data422Ex : Js := .obj [("errors", .obj [("name", .str "required")])]

/-- A backend error body carrying a fault descriptor with a faultstring
and an error code. -/
def dataFaultEx : Js :=
  .obj [("fault", .obj [("faultstring", .str "boom"),
                        ("detail", .obj [("errorcode", .str "steps.E42")])])]

/-- A registration body whose `redirect_uris` is missing (destructures to
`undefined`). -/
def bodyBadEx : RegisterBody :=
  { redirect_uris := .undefined
    client_name := .undefined
    grant_types := .undefined
    response_types := .undefined
    token_endpoint_auth_method := .undefined }

/-- A backend success envelope whose `data` member is a two-element
array. -/
def backendOkBody : Js :=
  .obj [("status", .bool true), ("message", .str "ok"),
        ("data", .arr [.num 1, .num 2])]

/-- A backend 422 body carrying a `fault.faultstring` (and no `errors`,
`fault.detail` or `message` member). -/
def data422Fault : Js :=
  .obj [("fault", .obj [("faultstring", .str "boom")])]

/-! ## Helper lemmas -/

theorem digitChar_toNat (m : Nat) (h : m < 10) : (Nat.digitChar m).toNat = 48 + m := by
  interval_cases m <;> decide

theorem isDigitChar_digitChar (m : Nat) (h : m < 10) :
    isDigitChar (Nat.digitChar m) = true := by
  interval_cases m <;> decide

theorem decAux_digits (fuel : Nat) :
    ∀ n c, c ∈ decAux fuel n → isDigitChar c = true := by
  induction fuel with
  | zero => intro n c hc; simp [decAux] at hc
  | succ fuel ih =>
    intro n c hc
    by_cases hn : n = 0
    · simp [decAux, hn] at hc
    · rw [decAux, if_neg hn] at hc
      rcases List.mem_append.mp hc with h | h
      · exact ih _ _ h
      · rcases List.mem_singleton.mp h with rfl
        exact isDigitChar_digitChar _ (Nat.mod_lt _ (by decide))

theorem decVal_append (xs : List Char) (c : Char) :
    decVal (xs ++ [c]) = decVal xs * 10 + (c.toNat - 48) := by
  simp [decVal, List.foldl_append]

theorem decAux_val (fuel : Nat) : ∀ n, n ≤ fuel → decVal (decAux fuel n) = n := by
  induction fuel with
  | zero =>
    intro n hn
    interval_cases n
    simp [decAux, decVal]
  | succ fuel ih =>
    intro n hn
    by_cases hn0 : n = 0
    · simp [decAux, hn0, decVal]
    · have hdivlt : n / 10 < n := Nat.div_lt_self (Nat.pos_of_ne_zero hn0) (by decide)
      have hmod : n % 10 < 10 := Nat.mod_lt _ (by decide)
      rw [decAux, if_neg hn0, decVal_append, ih _ (by omega),
        digitChar_toNat _ hmod]
      omega

theorem natToStr_val (n : Nat) : decVal (natToStr n).data = n := by
  by_cases h : n = 0
  · subst h; decide
  · rw [natToStr, if_neg h]
    exact decAux_val n n (Nat.le_refl n)

theorem natToStr_data_inj {a b : Nat} (h : (natToStr a).data = (natToStr b).data) :
    a = b := by
  have hv := congrArg decVal h
  rwa [natToStr_val, natToStr_val] at hv

theorem natToStr_digits (n : Nat) :
    ∀ c ∈ (natToStr n).data, isDigitChar c = true := by
  by_cases h : n = 0
  · subst h; decide
  · rw [natToStr, if_neg h]
    exact fun c hc => decAux_digits n n c hc

theorem natToStr_ne_nil (n : Nat) : (natToStr n).data ≠ [] := by
  by_cases h : n = 0
  · subst h; decide
  · rw [natToStr, if_neg h]
    show decAux n n ≠ []
    cases n with
    | zero => exact absurd rfl h
    | succ m =>
      rw [decAux, if_neg h]
      simp

theorem digit_ne_dash {c : Char} (h : isDigitChar c = true) : (c != '-') = true := by
  rw [bne_iff_ne]
  intro hc
  subst hc
  revert h
  decide

theorem dash_not_mem_natToStr (n : Nat) : '-' ∉ (natToStr n).data := by
  intro hmem
  have := natToStr_digits n '-' hmem
  revert this
  decide

theorem append_sep_inj (sep : Char) (xs1 : List Char) :
    ∀ xs2 ys1 ys2, sep ∉ xs1 → sep ∉ xs2 →
      xs1 ++ sep :: ys1 = xs2 ++ sep :: ys2 → xs1 = xs2 ∧ ys1 = ys2 := by
  induction xs1 with
  | nil =>
    intro xs2 ys1 ys2 _ h2 heq
    cases xs2 with
    | nil => simpa using heq
    | cons b bs =>
      simp only [List.nil_append, List.cons_append, List.cons.injEq] at heq
      exact absurd (heq.1 ▸ List.mem_cons_self b bs) h2
  | cons a as ih =>
    intro xs2 ys1 ys2 h1 h2 heq
    cases xs2 with
    | nil =>
      simp only [List.cons_append, List.nil_append, List.cons.injEq] at heq
      exact absurd (heq.1 ▸ List.mem_cons_self a as) h1
    | cons b bs =>
      simp only [List.cons_append, List.cons.injEq] at heq
      have hrec := ih bs ys1 ys2 (fun hm => h1 (List.mem_cons_of_mem a hm))
        (fun hm => h2 (List.mem_cons_of_mem b hm)) heq.2
      exact ⟨by rw [heq.1, hrec.1], hrec.2⟩

theorem mkClientId_data (n r : Nat) :
    (mkClientId n r).data =
      "client-".data ++ ((natToStr n).data ++ '-' :: (natToStr r).data) := by
  have hdash : ("-" : String).data = ['-'] := rfl
  simp [mkClientId, String.data_append, hdash, List.append_assoc]

theorem mkClientId_inj {n1 r1 n2 r2 : Nat}
    (h : mkClientId n1 r1 = mkClientId n2 r2) : n1 = n2 ∧ r1 = r2 := by
  have hd := congrArg String.data h
  rw [mkClientId_data, mkClientId_data] at hd
  have hd2 := List.append_cancel_left hd
  have hsep := append_sep_inj '-' _ _ _ _ (dash_not_mem_natToStr n1)
    (dash_not_mem_natToStr n2) hd2
  exact ⟨natToStr_data_inj hsep.1, natToStr_data_inj hsep.2⟩

theorem takeWhile_append_middle (p : Char → Bool) (xs : List Char) :
    ∀ y ys, (∀ c ∈ xs, p c = true) → p y = false →
      (xs ++ y :: ys).takeWhile p = xs ∧ (xs ++ y :: ys).dropWhile p = y :: ys := by
  induction xs with
  | nil =>
    intro y ys _ hy
    simp [List.takeWhile_cons, List.dropWhile_cons, hy]
  | cons a as ih =>
    intro y ys hall hy
    have ha : p a = true := hall a (List.mem_cons_self a as)
    have hrec := ih y ys (fun c hc => hall c (List.mem_cons_of_mem a hc)) hy
    simp [List.takeWhile_cons, List.dropWhile_cons, ha, hrec.1, hrec.2]

theorem mkClientId_pattern (n r : Nat) :
    matchesClientIdPattern (mkClientId n r) = true := by
  have hlen : ("client-".data).length = 7 := rfl
  have hmid := takeWhile_append_middle (fun c => c != '-') (natToStr n).data '-'
    ((natToStr r).data) (fun c hc => digit_ne_dash (natToStr_digits n c hc)) (by decide)
  rw [matchesClientIdPattern, mkClientId_data, List.take_left' hlen,
    List.drop_left' hlen]
  simp only [hmid.1, hmid.2]
  have hne1 : ((natToStr n).data).isEmpty = false := by
    rw [List.isEmpty_eq_false_iff_exists_mem]
    rcases List.exists_mem_of_ne_nil _ (natToStr_ne_nil n) with ⟨c, hc⟩
    exact ⟨c, hc⟩
  have hne2 : ((natToStr r).data).isEmpty = false := by
    rw [List.isEmpty_eq_false_iff_exists_mem]
    rcases List.exists_mem_of_ne_nil _ (natToStr_ne_nil r) with ⟨c, hc⟩
    exact ⟨c, hc⟩
  simp only [hne1, hne2, List.all_eq_true, Bool.not_false, Bool.true_and,
    Bool.and_eq_true, beq_self_eq_true]
  exact ⟨natToStr_digits n, natToStr_digits r⟩

theorem regGet_regDelete_self (reg : Registry) (c : String) :
    regGet (regDelete reg c) c = none := by
  have hfind : List.find? (fun p => p.1 == c)
      (List.filter (fun p => p.1 != c) reg) = none := by
    rw [List.find?_eq_none]
    intro x hx
    have hxne := (List.mem_filter.mp hx).2
    rw [bne_iff_ne] at hxne
    simp [hxne]
  simp [regGet, regDelete, hfind]

theorem regGet_some_key {reg : Registry} {c : String} {r : Registration}
    (h : regGet reg c = some r) : ∃ p ∈ reg, p.1 = c := by
  rw [regGet] at h
  cases hf : List.find? (fun p => p.1 == c) reg with
  | none => rw [hf] at h; cases h
  | some p =>
    have hmem := List.mem_of_find?_eq_some hf
    have hpred := List.find?_some hf
    exact ⟨p, hmem, by simpa using hpred⟩

theorem truthy_jsOr (a b : Js) : truthy (jsOr a b) = (truthy a || truthy b) := by
  by_cases h : truthy a <;> simp [jsOr, h]

theorem validationErrors_eq_spec (data : Js) :
    jsOr (jsOr (jsOr (jsGetOpt data "errors") (jsGetOpt (jsGetOpt data "fault") "detail"))
        (jsGetOpt data "message")) (.str "Validation error occurred") =
      specValidationDetail data := by
  rw [specValidationDetail]
  by_cases h1 : truthy (jsGetOpt data "errors") <;>
    by_cases h2 : truthy (jsGetOpt (jsGetOpt data "fault") "detail") <;>
      by_cases h3 : truthy (jsGetOpt data "message") <;>
        simp [jsOr, truthy_jsOr, h1, h2, h3]

theorem regGet_regSet_self (reg : Registry) (k : String) (v : Registration) :
    regGet (regSet reg k v) k = some v := by
  rw [regGet, regSet, List.find?_cons_of_pos _ (by simp)]

theorem registerHandler_valid (body : RegisterBody) (nowMs rand : Nat)
    (secretSuffix : String) (nowMs2 : Nat) (reg : Registry)
    (u : Js) (us : List Js) (hru : body.redirect_uris = .arr (u :: us)) :
    registerHandler body nowMs rand secretSuffix nowMs2 reg =
      (.created201 (mkRegistration body nowMs rand secretSuffix nowMs2),
       regSet reg (mkRegistration body nowMs rand secretSuffix nowMs2).client_id
         (mkRegistration body nowMs rand secretSuffix nowMs2)) := by
  have hvalid : invalidRedirectUris body.redirect_uris = false := by
    rw [hru]
    simp [invalidRedirectUris, truthy, isJsArray, jsArrayLength]
  rw [registerHandler, hvalid]
  simp

theorem registerHandler_invalid (body : RegisterBody) (nowMs rand : Nat)
    (secretSuffix : String) (nowMs2 : Nat) (reg : Registry)
    (hbad : ∀ u us, body.redirect_uris ≠ Js.arr (u :: us)) :
    registerHandler body nowMs rand secretSuffix nowMs2 reg =
      (.error400 "invalid_client_metadata"
        "redirect_uris is required and must be a non-empty array", reg) := by
  have hinv : invalidRedirectUris body.redirect_uris = true := by
    cases hv : body.redirect_uris with
    | arr xs =>
      cases xs with
      | nil => rfl
      | cons u us => exact absurd hv (hbad u us)
    | bool b => simp [invalidRedirectUris, isJsArray]
    | num n => simp [invalidRedirectUris, isJsArray]
    | str s => simp [invalidRedirectUris, isJsArray]
    | obj fs => simp [invalidRedirectUris, isJsArray]
    | undefined => rfl
    | null => rfl
    | nan => rfl
  rw [registerHandler, hinv]
  simp

/-! ## Claims -/

/-- C1: token exchange is one-time-use. For every code, the `/token`
handler looks the code up as a registry key; if absent it fails with
`invalid_grant` (HTTP 400) leaving the registry unchanged; if present it
deletes the record and responds 200 with token type `"Bearer"`, so a
second exchange of the same code fails with `invalid_grant`. (The registry
hypothesis — no empty-string key — holds for every reachable registry,
whose keys are all of the form `client-...`.) -/
theorem token_exchange_is_one_time_use (nowMs nowMs2 : Nat) (c : String)
    (reg : Registry) (hwf : reg.all (fun p => p.1 != "") = true) :
    (regGet reg c = none →
      tokenHandler nowMs (some c) reg =
        (.error400 "invalid_grant" "Invalid or expired authorization code", reg) ∧
      (tokenHandler nowMs (some c) reg).1.httpStatus = 400) ∧
    (∀ record, regGet reg c = some record →
      (∃ tok exp, tokenHandler nowMs (some c) reg =
        (.ok200 tok (Js.str "Bearer") exp, regDelete reg c)) ∧
      (tokenHandler nowMs (some c) reg).1.httpStatus = 200 ∧
      (tokenHandler nowMs2 (some c) (regDelete reg c)).1 =
        .error400 "invalid_grant" "Invalid or expired authorization code") := by
  constructor
  · intro hnone
    by_cases hc : c = ""
    · subst hc
      exact ⟨rfl, rfl⟩
    · constructor
      · simp [tokenHandler, hc, hnone]
      · simp [tokenHandler, hc, hnone, TokenResponse.httpStatus]
  · intro record hsome
    have hc : c ≠ "" := by
      rcases regGet_some_key hsome with ⟨p, hp, hpc⟩
      have hall := (List.all_eq_true.mp hwf) p hp
      rw [bne_iff_ne] at hall
      rw [← hpc]
      exact hall
    refine ⟨⟨record.getProp "access_token",
      jsFloorDiv1000 (jsSub (record.getProp "expires_at") (.num nowMs)), ?_⟩, ?_, ?_⟩
    · simp only [tokenHandler, if_neg hc, hsome]
      rfl
    · simp only [tokenHandler, if_neg hc, hsome]
      rfl
    · simp only [tokenHandler, if_neg hc, regGet_regDelete_self]

/-- C1 witness: a registry holding one record under key `client-1-2`;
exchanging that code succeeds with token type `"Bearer"` and deletes the
record, and a second exchange fails with `invalid_grant`. -/
theorem token_exchange_is_one_time_use_witness :
    (∃ tok exp, tokenHandler 5 (some "client-1-2") [("client-1-2", recEx)] =
      (.ok200 tok (Js.str "Bearer") exp,
       regDelete [("client-1-2", recEx)] "client-1-2")) ∧
    (tokenHandler 7 (some "client-1-2")
        (regDelete [("client-1-2", recEx)] "client-1-2")).1 =
      .error400 "invalid_grant" "Invalid or expired authorization code" := by
  have h := (token_exchange_is_one_time_use 5 7 "client-1-2"
    [("client-1-2", recEx)] (by decide)).2 recEx rfl
  exact ⟨h.1, h.2.2⟩

/-- C2 counterexample: an empty-string `Authorization` header value is a
present header that, after stripping the optional prefix, trims to the
empty string, yet the gate rejects it with code `unauthorized` (the JS
guard `!authHeader` fires on `""`), not `invalid_token` as the claim
demands. -/
theorem gate_empty_header_counterexample :
    jsTrim (bearerOf "") = "" ∧
    simpleAuthMiddleware "http://localhost:5173/login" 0 (some "") =
      .rejected401 "unauthorized" "Access token required"
        (some (authorizeUrlOf "http://localhost:5173/login")) ∧
    ("unauthorized" : String) ≠ "invalid_token" := by
  exact ⟨rfl, rfl, by decide⟩

/-- C2 (amended): for every Request Gate evaluation, an absent — or
empty-string — `Authorization` header is rejected with `unauthorized` and
the constructed authorization URL hint; a nonempty header that trims to
nothing after stripping an optional `"Bearer "` prefix is rejected with
`invalid_token`; otherwise the remaining string is attached as the bearer
token and the request proceeds. -/
theorem request_gate_evaluation (ep : String) (nowMs : Nat) (h : Option String) :
    ((h = none ∨ h = some "") →
      simpleAuthMiddleware ep nowMs h =
        .rejected401 "unauthorized" "Access token required"
          (some (authorizeUrlOf ep))) ∧
    (∀ s, h = some s → s ≠ "" → jsTrim (bearerOf s) = "" →
      simpleAuthMiddleware ep nowMs h =
        .rejected401 "invalid_token" "Empty token" none) ∧
    (∀ s, h = some s → s ≠ "" → jsTrim (bearerOf s) ≠ "" →
      simpleAuthMiddleware ep nowMs h =
        .proceed { token := bearerOf s, clientId := "fastalert-client",
                   scopes := [], expiresAt := nowMs / 1000 + 3600 }) := by
  refine ⟨?_, ?_, ?_⟩
  · rintro (rfl | rfl) <;> rfl
  · rintro s rfl hs ht
    simp [simpleAuthMiddleware, hs, ht]
  · rintro s rfl hs ht
    simp [simpleAuthMiddleware, hs, ht]

/-- C2 witness: `Bearer   ` (whitespace only) is rejected with
`invalid_token`; `Bearer abc` proceeds with attached token `abc`. -/
theorem request_gate_evaluation_witness :
    simpleAuthMiddleware "http://front/login" 2000 (some "Bearer   ") =
      .rejected401 "invalid_token" "Empty token" none ∧
    simpleAuthMiddleware "http://front/login" 2000 (some "Bearer abc") =
      .proceed { token := "abc", clientId := "fastalert-client",
                 scopes := [], expiresAt := 3602 } := by
  constructor
  · exact (request_gate_evaluation "http://front/login" 2000
      (some "Bearer   ")).2.1 "Bearer   " rfl (by decide) (by decide)
  · exact (request_gate_evaluation "http://front/login" 2000
      (some "Bearer abc")).2.2 "Bearer abc" rfl (by decide) (by decide)

/-- C3: a registration whose `redirect_uris` is missing, not a list, or an
empty list yields a 400 `invalid_client_metadata` error and leaves the
client registry unchanged. -/
theorem register_invalid_redirect_uris_rejected (body : RegisterBody)
    (nowMs rand : Nat) (secretSuffix : String) (nowMs2 : Nat) (reg : Registry)
    (hbad : ∀ u us, body.redirect_uris ≠ Js.arr (u :: us)) :
    registerHandler body nowMs rand secretSuffix nowMs2 reg =
      (.error400 "invalid_client_metadata"
        "redirect_uris is required and must be a non-empty array", reg) ∧
    (registerHandler body nowMs rand secretSuffix nowMs2 reg).1.httpStatus = 400 := by
  have h := registerHandler_invalid body nowMs rand secretSuffix nowMs2 reg hbad
  exact ⟨h, by rw [h]; rfl⟩

/-- C3 witness: registering with `redirect_uris` absent is rejected and
adds nothing to an empty registry. -/
theorem register_invalid_redirect_uris_rejected_witness :
    registerHandler bodyBadEx 1 2 "s" 3 [] =
      (.error400 "invalid_client_metadata"
        "redirect_uris is required and must be a non-empty array", []) :=
  (register_invalid_redirect_uris_rejected bodyBadEx 1 2 "s" 3 []
    (fun _ _ h => Js.noConfusion h)).1

/-- C4 counterexample: an axios transport failure with no response
received (network failure / timeout — `axios.isAxiosError` holds for
these) is replaced by the generic typed API error with message
`API request failed`, not propagated unchanged as the claim states. -/
theorem transport_failure_wrapped_counterexample :
    (requestModel initClientState "get" "/organization/channels" none none []
        (.noResponse (JsError.mk "ECONNABORTED"))).2 =
      .error (.apiError (.str "API request failed") Js.undefined none) ∧
    (Except.error (.apiError (.str "API request failed") Js.undefined none) :
        Except ReqFailure Js) ≠ .error (.raw (JsError.mk "ECONNABORTED")) := by
  refine ⟨rfl, ?_⟩
  intro h
  injection h with h1
  exact ReqFailure.noConfusion h1

/-- C4 (amended): a transport failure with no response is re-raised as the
typed API error `API request failed` with no code and no status (the
single transport attempt is never retried); only a non-axios error
propagates unchanged through the final `throw error`. -/
theorem transport_failure_behavior (st : ClientState) (method url : String)
    (data params : Option Js) (header : List (String × Js)) (e : JsError) :
    (requestModel st method url data params header (.noResponse e)).2 =
      .error (.apiError (.str "API request failed") Js.undefined none) ∧
    (requestModel st method url data params header (.noResponse e)).1.length = 1 ∧
    (requestModel st method url data params header (.nonAxios e)).2 =
      .error (.raw e) :=
  ⟨rfl, rfl, rfl⟩

/-- C5 counterexample: with a backend success envelope whose `data` is
`[1, 2]`, `searchChannelEvents` resolves to the normalized envelope object
(`return apiResp as T`), not to the bare `data` array the claim says it
returns. -/
theorem search_channels_returns_envelope_counterexample :
    (searchChannelEvents initClientState (Js.obj [("name", Js.str "alerts")])
        (.ok backendOkBody)).2 =
      .ok (Js.obj [("status", Js.bool true), ("message", Js.str "ok"),
        ("data", Js.arr [Js.num 1, Js.num 2])]) ∧
    (Except.ok (Js.obj [("status", Js.bool true), ("message", Js.str "ok"),
        ("data", Js.arr [Js.num 1, Js.num 2])]) : Except ReqFailure Js) ≠
      .ok (Js.arr [Js.num 1, Js.num 2]) := by
  refine ⟨rfl, ?_⟩
  intro h
  injection h with h1
  exact Js.noConfusion h1

/-- C5 (amended): `searchChannelEvents(\x7bname: "alerts"\x7d)` issues
exactly one GET to `/organization/channels` with those query parameters,
and resolves to the normalized envelope object whose `data` member is the
backend `data` array unchanged, element order preserved (the envelope, not
the bare array, is the returned value). -/
theorem search_channels_round_trip (st : ClientState) (body : Js) (xs : List Js)
    (hdata : jsGetOpt body "data" = .arr xs) :
    (searchChannelEvents st (Js.obj [("name", Js.str "alerts")]) (.ok body)).1 =
      [{ method := "get", url := "/organization/channels", data := none,
         params := some (Js.obj [("name", Js.str "alerts")]),
         headers := wireHeaders st [] }] ∧
    ∃ s m, (searchChannelEvents st (Js.obj [("name", Js.str "alerts")])
        (.ok body)).2 =
      .ok (Js.obj [("status", s), ("message", m), ("data", Js.arr xs)]) := by
  constructor
  · rfl
  · refine ⟨jsNullish (jsGetOpt body "status") (.bool true),
      jsNullish (jsGetOpt body "message") (.str "No message provided"), ?_⟩
    simp [searchChannelEvents, requestModel, mkApiResp, hdata]

/-- C5 witness: the round trip at the concrete backend envelope with
`data = [1, 2]`. -/
theorem search_channels_round_trip_witness :
    (searchChannelEvents initClientState (Js.obj [("name", Js.str "alerts")])
        (.ok backendOkBody)).1 =
      [{ method := "get", url := "/organization/channels", data := none,
         params := some (Js.obj [("name", Js.str "alerts")]),
         headers := wireHeaders initClientState [] }] ∧
    ∃ s m, (searchChannelEvents initClientState
        (Js.obj [("name", Js.str "alerts")]) (.ok backendOkBody)).2 =
      .ok (Js.obj [("status", s), ("message", m),
        ("data", Js.arr [Js.num 1, Js.num 2])]) :=
  search_channels_round_trip initClientState backendOkBody [Js.num 1, Js.num 2] rfl

/-- C8: a registration with a non-empty `redirect_uris` list responds 201
with a record holding the freshly generated identifier and secret, the
documented defaults when the caller omits the optional fields, a zero
secret-expiry marker and the issuance timestamp, and the same record is
stored in the registry keyed by its `client_id`. -/
theorem register_success_record (body : RegisterBody) (nowMs rand : Nat)
    (secretSuffix : String) (nowMs2 : Nat) (reg : Registry)
    (u : Js) (us : List Js) (hru : body.redirect_uris = .arr (u :: us)) :
    ∃ record,
      registerHandler body nowMs rand secretSuffix nowMs2 reg =
        (.created201 record, regSet reg record.client_id record) ∧
      (RegisterResponse.created201 record).httpStatus = 201 ∧
      record.client_id = mkClientId nowMs rand ∧
      record.client_secret = "secret-" ++ secretSuffix ∧
      record.redirect_uris = .arr (u :: us) ∧
      (body.grant_types = .undefined →
        record.grant_types = .arr [.str "authorization_code"]) ∧
      (body.response_types = .undefined → record.response_types = .arr [.str "code"]) ∧
      (body.token_endpoint_auth_method = .undefined →
        record.token_endpoint_auth_method = .str "client_secret_basic") ∧
      record.client_secret_expires_at = 0 ∧
      record.client_id_issued_at = nowMs2 / 1000 ∧
      regGet (registerHandler body nowMs rand secretSuffix nowMs2 reg).2
        record.client_id = some record := by
  refine ⟨mkRegistration body nowMs rand secretSuffix nowMs2,
    registerHandler_valid body nowMs rand secretSuffix nowMs2 reg u us hru,
    rfl, rfl, rfl, hru, ?_, ?_, ?_, rfl, rfl, ?_⟩
  · intro hg
    simp [mkRegistration, hg, jsOr, truthy]
  · intro hg
    simp [mkRegistration, hg, jsOr, truthy]
  · intro hg
    simp [mkRegistration, hg, jsOr, truthy]
  · rw [registerHandler_valid body nowMs rand secretSuffix nowMs2 reg u us hru]
    exact regGet_regSet_self reg _ _

/-- C8 witness: the success shape at a concrete registration call with all
optional fields omitted. -/
theorem register_success_record_witness :
    ∃ record,
      registerHandler bodyEx 1 2 "abc" 0 [] =
        (.created201 record, regSet [] record.client_id record) ∧
      (RegisterResponse.created201 record).httpStatus = 201 ∧
      record.client_id = mkClientId 1 2 ∧
      record.client_secret = "secret-" ++ "abc" ∧
      record.redirect_uris = .arr (Js.str "https://a/cb" :: []) ∧
      (bodyEx.grant_types = .undefined →
        record.grant_types = .arr [.str "authorization_code"]) ∧
      (bodyEx.response_types = .undefined → record.response_types = .arr [.str "code"]) ∧
      (bodyEx.token_endpoint_auth_method = .undefined →
        record.token_endpoint_auth_method = .str "client_secret_basic") ∧
      record.client_secret_expires_at = 0 ∧
      record.client_id_issued_at = 0 / 1000 ∧
      regGet (registerHandler bodyEx 1 2 "abc" 0 []).2 record.client_id =
        some record :=
  register_success_record bodyEx 1 2 "abc" 0 [] (Js.str "https://a/cb") [] rfl

/-- C9 counterexample: two distinct successful registration calls (the
second on the registry produced by the first) that observe the same
`Date.now()` millisecond and the same random draw return the same
`client_id`, refuting unconditional process-lifetime uniqueness. -/
theorem client_id_collision_counterexample :
    registeredIdOf (registerHandler bodyEx 0 0 "s1" 0 []).1 = some "client-0-0" ∧
    registeredIdOf (registerHandler bodyEx 0 0 "s2" 0
        (registerHandler bodyEx 0 0 "s1" 0 []).2).1 = some "client-0-0" := by
  exact ⟨rfl, rfl⟩

/-- C9 (amended): two successful registration calls return distinct client
identifiers whenever their generation draws differ (different `Date.now()`
milliseconds or different random draws), and each returned identifier
matches the pattern `client-<timestamp>-<int>`. -/
theorem client_id_distinct_and_pattern (b1 b2 : RegisterBody)
    (n1 r1 n2 r2 nB1 nB2 : Nat) (s1 s2 : String) (reg1 reg2 : Registry)
    (u1 : Js) (us1 : List Js) (h1 : b1.redirect_uris = .arr (u1 :: us1))
    (u2 : Js) (us2 : List Js) (h2 : b2.redirect_uris = .arr (u2 :: us2))
    (hdiff : n1 ≠ n2 ∨ r1 ≠ r2) :
    ∃ rec1 rec2,
      (registerHandler b1 n1 r1 s1 nB1 reg1).1 = .created201 rec1 ∧
      (registerHandler b2 n2 r2 s2 nB2 reg2).1 = .created201 rec2 ∧
      rec1.client_id ≠ rec2.client_id ∧
      matchesClientIdPattern rec1.client_id = true ∧
      matchesClientIdPattern rec2.client_id = true := by
  refine ⟨mkRegistration b1 n1 r1 s1 nB1, mkRegistration b2 n2 r2 s2 nB2,
    by rw [registerHandler_valid b1 n1 r1 s1 nB1 reg1 u1 us1 h1],
    by rw [registerHandler_valid b2 n2 r2 s2 nB2 reg2 u2 us2 h2], ?_,
    mkClientId_pattern n1 r1, mkClientId_pattern n2 r2⟩
  intro hid
  have hinj := mkClientId_inj hid
  rcases hdiff with hd | hd
  · exact hd hinj.1
  · exact hd hinj.2

/-- C9 witness: two registrations in the same millisecond with different
random draws get distinct, pattern-conforming identifiers. -/
theorem client_id_distinct_and_pattern_witness :
    ∃ rec1 rec2,
      (registerHandler bodyEx 1 2 "x" 0 []).1 = .created201 rec1 ∧
      (registerHandler bodyEx 1 3 "y" 0 []).1 = .created201 rec2 ∧
      rec1.client_id ≠ rec2.client_id ∧
      matchesClientIdPattern rec1.client_id = true ∧
      matchesClientIdPattern rec2.client_id = true :=
  client_id_distinct_and_pattern bodyEx bodyEx 1 2 1 3 0 0 "x" "y" [] []
    (Js.str "https://a/cb") [] rfl (Js.str "https://a/cb") [] rfl
    (Or.inr (by decide))

/-- C10: after `setToken`, every outbound request issued by
`FastalertClient.request` carries `X-API-KEY` equal to the configured
credential, whatever the per-call extra headers contain — the configured
credential is merged last in the header spread. -/
theorem api_key_header_not_overridable (st : ClientState) (token : String)
    (method url : String) (data params : Option Js)
    (extra : List (String × Js)) (outcome : AxiosOutcome) :
    (requestModel (setToken st token) method url data params extra outcome).1.map
      (fun w => hGet w.headers "X-API-KEY") = [Js.str token] := rfl

/-- C6: every backend response with status 422 raises the typed error with
code `VALIDATION_ERROR` and status 422, whose message is the
`Validation Error: ` prefix followed by the validation detail taken from
the first populated of `errors`, `fault.detail` or `message` (structured
detail stringified); in particular, a structured `errors` field makes the
message contain its stringified contents. -/
theorem validation_error_mapping (data : Js) :
    normalizeAxiosFailure (some (422, data)) =
      .apiError
        (.str ("Validation Error: " ++ specDetailText (specValidationDetail data)))
        (.str "VALIDATION_ERROR") (some 422) ∧
    (∀ fs, jsGetOpt data "errors" = Js.obj fs →
      ∃ pre post : String,
        normalizeAxiosFailure (some (422, data)) =
          .apiError (.str (pre ++ jsonStringify2 (Js.obj fs) ++ post))
            (.str "VALIDATION_ERROR") (some 422)) := by
  have hmain : normalizeAxiosFailure (some (422, data)) =
      .apiError
        (.str ("Validation Error: " ++ specDetailText (specValidationDetail data)))
        (.str "VALIDATION_ERROR") (some 422) := by
    simp only [normalizeAxiosFailure, Option.map_some', if_true]
    rw [validationErrors_eq_spec]
    rfl
  refine ⟨hmain, ?_⟩
  intro fs hfs
  refine ⟨"Validation Error: ", "", ?_⟩
  rw [hmain]
  have h1 : specValidationDetail data = Js.obj fs := by
    rw [specValidationDetail, hfs]
    rfl
  rw [h1]
  have h2 : specDetailText (Js.obj fs) = jsonStringify2 (Js.obj fs) := rfl
  rw [h2]
  simp

/-- C6 witness: a 422 body whose `errors` member is the object
`\x7b name: "required" \x7d`. -/
theorem validation_error_mapping_witness :
    ∃ pre post : String,
      normalizeAxiosFailure (some (422, data422Ex)) =
        .apiError
          (.str (pre ++ jsonStringify2 (Js.obj [("name", Js.str "required")]) ++ post))
          (.str "VALIDATION_ERROR") (some 422) :=
  (validation_error_mapping data422Ex).2 [("name", Js.str "required")] rfl

/-- C7 counterexample: a backend error response with status 422 carrying
`fault.faultstring = "boom"` is handled by the validation branch, so the
raised message is the validation default, not the faultstring the claim
demands. -/
theorem faultstring_422_counterexample :
    normalizeAxiosFailure (some (422, data422Fault)) =
      .apiError (.str "Validation Error: Validation error occurred")
        (.str "VALIDATION_ERROR") (some 422) ∧
    ("Validation Error: Validation error occurred" : String) ≠ "boom" := by
  exact ⟨rfl, by decide⟩

/-- C7 (amended): for every backend error response with status other than
422 carrying a nonempty `fault.faultstring`, the raised error's message
equals that faultstring and its code is `fault.detail.errorcode` (present
or not); with no fault descriptor the message is the default
`API request failed`. -/
theorem fault_descriptor_mapping (status : Nat) (data : Js) (hst : status ≠ 422) :
    (∀ s, s ≠ "" → jsGetOpt (jsGetOpt data "fault") "faultstring" = .str s →
      normalizeAxiosFailure (some (status, data)) =
        .apiError (.str s)
          (jsGetOpt (jsGetOpt (jsGetOpt data "fault") "detail") "errorcode")
          (some status)) ∧
    (jsGetOpt data "fault" = .undefined →
      normalizeAxiosFailure (some (status, data)) =
        .apiError (.str "API request failed") Js.undefined (some status)) := by
  have hne : (some status : Option Nat) ≠ some 422 := by simpa using hst
  constructor
  · intro s hs hfs
    simp only [normalizeAxiosFailure, Option.map_some']
    rw [if_neg hne, hfs]
    have hst2 : truthy (Js.str s) = true := by
      simp [truthy, hs]
    simp [jsOr, hst2]
  · intro hf
    simp only [normalizeAxiosFailure, Option.map_some']
    rw [if_neg hne, hf]
    rfl

/-- C7 witness: a 500 response whose fault carries faultstring `boom` and
errorcode `steps.E42`. -/
theorem fault_descriptor_mapping_witness :
    normalizeAxiosFailure (some (500, dataFaultEx)) =
      .apiError (.str "boom") (.str "steps.E42") (some 500) :=
  (fault_descriptor_mapping 500 dataFaultEx (by decide)).1 "boom" (by decide) rfl
